import Mathlib

/-!
Verification of the pgfe resource-management core: the `Data` byte-payload
hierarchy (`src/pgfe/data.cpp`) and the connection pool
(`src/pgfe/connection_pool.hpp`).

Shallow embedding conventions:
- Machine memory is a flat, append-only list of bytes (`Mem`); allocation
  appends a block at the end and returns its base address, so every
  allocation is fresh (its base equals the previous length of memory).
- A C pointer is `Ptr`: the null pointer, the static empty string literal
  returned where the code returns a literal, the internal buffer of a
  byte container object, or an address into `Mem`.
- Data formats (`Data_format`) are integers: 0 for text, 1 for binary,
  with -1 the invalid sentinel used by `Data_view` (data.cpp:283).
- Code that is declared but not implemented under `src/` (the bodies in
  `data.hpp` and `connection_pool.cpp`) is modelled from the spec; each
  such definition carries a doc comment starting `Modelled from the spec:`.
  Everything else is translated directly from `data.cpp` and
  `connection_pool.hpp`.
-/

namespace Pgfe

/-- A byte value. Only equality of bytes matters to the claims. -/
abbrev Byte := Nat

/-- Flat machine memory: allocation appends at the end. -/
abbrev Mem := List Byte

/-- A C pointer: null, the static empty string literal, the internal buffer
of a container object, or an address into flat memory. -/
inductive Ptr where
  | null
  | emptyLit
  | containerBuf
  | addr (a : Nat)
deriving DecidableEq

/-- Read `n` bytes of memory starting at address `a`. -/
def readMem (m : Mem) (a n : Nat) : List Byte :=
  (m.drop a).take n

/-- Read `n` bytes behind a pointer; non-address pointers denote no bytes. -/
def readPtr (m : Mem) (p : Ptr) (n : Nat) : List Byte :=
  match p with
  | Ptr.addr a => readMem m a n
  | _ => []

/-- A `std::string_view`: a data pointer and a size. -/
structure String_view where
  ptr : Ptr
  size : Nat
deriving DecidableEq

/-- The bytes a string_view denotes in memory `m`. -/
def String_view.read (sv : String_view) (m : Mem) : List Byte :=
  readPtr m sv.ptr sv.size

/-- The length of the C string at `p` (bytes before the first 0), used by
the `std::string_view` conversion in `Data_view::Data_view(const char*)`. -/
def cstrlen (m : Mem) (p : Ptr) : Nat :=
  match p with
  | Ptr.addr a => ((m.drop a).takeWhile (fun b => b != 0)).length
  | _ => 0

/-- The `Data_view` class of data.cpp: a format tag (default the invalid
sentinel -1) and a borrowed `std::string_view` `data_` (default null/0). -/
structure Data_view where
  format_ : Int := -1
  data_ : String_view := ⟨Ptr.null, 0⟩
deriving DecidableEq

/-- Modelled from the spec: the accessors of `Data_view` live in `data.hpp`,
which is not under `src/`. Per the spec a view exposes the externally
managed bytes and size it borrows. -/
def Data_view.size (v : Data_view) : Nat :=
  v.data_.size

/-- Modelled from the spec: `data.hpp` is not under `src/`. The spec requires
`is_empty` to agree with `size() == 0` on every Data. -/
def Data_view.is_empty (v : Data_view) : Bool :=
  v.data_.size == 0

/-- Modelled from the spec: `data.hpp` is not under `src/`. A view's
`bytes()` aliases the borrowed span (`make_no_copy` hands out a view over
the caller's memory), and the spec requires `bytes()` of an empty Data to
be non-null, pointing at a valid, if zero-length, terminator; so a view
whose borrowed pointer is null reports the static empty literal. -/
def Data_view.bytes (v : Data_view) : Ptr :=
  if v.data_.ptr = Ptr.null then Ptr.emptyLit else v.data_.ptr

/-- Modelled from the spec: `data.hpp` is not under `src/`; a view reports
the format tag it was constructed with. -/
def Data_view.format (v : Data_view) : Int :=
  v.format_

/-- The Data hierarchy of data.cpp: `container_Data` owns a byte container,
`memory_Data` owns a raw heap allocation plus an explicit size,
`empty_Data` owns nothing, and `Data_view` borrows. -/
inductive Data where
  | container_Data (storage : List Byte) (format_ : Int)
  | memory_Data (storage : Option Nat) (size_ : Nat) (format_ : Int)
  | empty_Data (format_ : Int)
  | view (v : Data_view)
deriving DecidableEq

/-- `format()` of each variant (data.cpp:52,101,149; view per `Data_view.format`). -/
def Data.format : Data → Int
  | Data.container_Data _ f => f
  | Data.memory_Data _ _ f => f
  | Data.empty_Data f => f
  | Data.view v => v.format

/-- `size()` of each variant: `storage_.size()`, the stored `size_`, 0, and
the view's borrowed size (data.cpp:57,106,154). -/
def Data.size : Data → Nat
  | Data.container_Data s _ => s.length
  | Data.memory_Data _ n _ => n
  | Data.empty_Data _ => 0
  | Data.view v => v.size

/-- `is_empty()` of each variant: `storage_.empty()`, `size() == 0`, `true`,
and the view's emptiness (data.cpp:62,111,159). -/
def Data.is_empty : Data → Bool
  | Data.container_Data s _ => s.isEmpty
  | Data.memory_Data _ n _ => n == 0
  | Data.empty_Data _ => true
  | Data.view v => v.is_empty

/-- `bytes()` of each variant: the container's internal buffer
(data.cpp:67, non-null for a `std::string`), `storage_.get()` with a fall
back to the `""` literal when null (data.cpp:116-119), the `""` literal
(data.cpp:164-167), and the view's pointer. -/
def Data.bytes : Data → Ptr
  | Data.container_Data _ _ => Ptr.containerBuf
  | Data.memory_Data st _ _ =>
      match st with
      | some a => Ptr.addr a
      | none => Ptr.emptyLit
  | Data.empty_Data _ => Ptr.emptyLit
  | Data.view v => v.bytes

/-- `Data::is_invariant_ok` (data.cpp:211-216): `size_ok` is
`(size() == 0) == is_empty()`; `empty_ok` is
`!is_empty() || ((size() == 0) && bytes())`, where a pointer in boolean
context tests non-nullness. -/
def Data.is_invariant_ok (d : Data) : Bool :=
  let size_ok := decide (d.size = 0) == d.is_empty
  let empty_ok := !d.is_empty || (decide (d.size = 0) && decide (d.bytes ≠ Ptr.null))
  size_ok && empty_ok

/-- `Data::make(std::string_view, Data_format)` (data.cpp:231-241): a
non-empty span is copied into a fresh heap buffer of `size + 1` bytes with
a trailing 0 and wrapped as a `memory_Data` of the span's size; an empty
span yields an `empty_Data` and allocates nothing. -/
def Data.make (m : Mem) (bytes : String_view) (format : Int) : Mem × Data :=
  if bytes.size > 0 then
    (m ++ (bytes.read m ++ [0]), Data.memory_Data (some m.length) bytes.size format)
  else
    (m, Data.empty_Data format)

/-- `Data_view::Data_view(const char*, std::size_t, Format)`
(data.cpp:265-273): when the pointer is non-null the format and the span
are stored; otherwise the members keep their defaults. -/
def Data_view.fromBytes (bytes : Ptr) (size : Nat) (format : Int) : Data_view :=
  if bytes ≠ Ptr.null then { format_ := format, data_ := ⟨bytes, size⟩ } else {}

/-- `Data_view::Data_view(const char*)` (data.cpp:256-263): when the pointer
is non-null the format becomes text and `data_` the C string at it (its
size computed by `strlen`); otherwise the members keep their defaults. -/
def Data_view.fromCString (m : Mem) (bytes : Ptr) : Data_view :=
  if bytes ≠ Ptr.null then { format_ := 0, data_ := ⟨bytes, cstrlen m bytes⟩ } else {}

/-- `Data::make_no_copy` (data.cpp:243-250): a non-empty span is wrapped as
a `Data_view` over the caller's memory (no byte is copied and memory is
untouched: the function does not take the heap at all); an empty span
yields an `empty_Data`. -/
def Data.make_no_copy (bytes : String_view) (format : Int) : Data :=
  if bytes.size > 0 then
    Data.view (Data_view.fromBytes bytes.ptr bytes.size format)
  else
    Data.empty_Data format

/-- `Data_view::Data_view(Data_view&&)` (data.cpp:279-284): the destination
takes the format and the span (`std::string_view` move is a copy), then only
`rhs.format_` is set to the sentinel `Format{-1}`. Returns
(destination, moved-from source). -/
def Data_view.moveCtor (rhs : Data_view) : Data_view × Data_view :=
  (⟨rhs.format_, rhs.data_⟩, ⟨-1, rhs.data_⟩)

/-- `Data_view::swap` (data.cpp:295-300): swaps `format_` and `data_`,
hence the whole objects. Returns the two objects after the swap. -/
def Data_view.swap (a b : Data_view) : Data_view × Data_view :=
  (b, a)

/-- `Data_view::operator=(Data_view&&)` (data.cpp:286-293), for distinct
objects: move-construct `tmp` from `rhs`, then swap `*this` with `tmp`.
Returns (new value of `*this`, moved-from `rhs`). -/
def Data_view.moveAssign (lhs rhs : Data_view) : Data_view × Data_view :=
  let p := Data_view.moveCtor rhs
  let q := Data_view.swap lhs p.1
  (q.1, p.2)

/-- `to_data()` (deep copy) of each variant: `container_Data` copies its
container into a new object (data.cpp:47-50), `memory_Data` delegates to
`Data::make` over its own bytes (data.cpp:96-99), `empty_Data` produces a
fresh `empty_Data` (data.cpp:144-147), and `Data_view::to_data`
(data.cpp:302-308) allocates a fresh buffer of exactly `size()` bytes (no
terminator) and wraps it as a `memory_Data`. -/
def Data.to_data (m : Mem) : Data → Mem × Data
  | Data.container_Data s f => (m, Data.container_Data s f)
  | Data.memory_Data st n f =>
      Data.make m ⟨(match st with | some a => Ptr.addr a | none => Ptr.null), n⟩ f
  | Data.empty_Data f => (m, Data.empty_Data f)
  | Data.view v =>
      (m ++ readPtr m v.data_.ptr v.data_.size,
       Data.memory_Data (some m.length) v.data_.size v.format_)

-- ---------------------------------------------------------------------------
-- Connection pool (connection_pool.hpp; bodies are in connection_pool.cpp,
-- which is not under src/, so behaviour is modelled from the spec).
-- ---------------------------------------------------------------------------

/-- An opaque database session, identified by its id. -/
structure Connection where
  id : Nat
deriving DecidableEq

/-- `Connection_pool::Handle` members (connection_pool.hpp:113-115): a raw
pool pointer (pool identity as a number), an owning `unique_ptr` to the
borrowed Connection, and the originating slot index. The defaults are the
default-constructed (invalid) handle. -/
structure Handle where
  pool_ : Option Nat := none
  connection_ : Option Connection := none
  connection_index_ : Nat := 0
deriving DecidableEq

/-- Modelled from the spec: `is_valid` is implemented in
`connection_pool.cpp`, not under `src/`; per the spec it holds exactly when
both the pool reference and the connection are present. -/
def Handle.is_valid (h : Handle) : Bool :=
  h.pool_.isSome && h.connection_.isSome

/-- `Handle::pool()` returns the stored pool pointer; in boolean context it
tests non-nullness. -/
def Handle.pool (h : Handle) : Option Nat :=
  h.pool_

/-- `Handle(Handle&&) = default` (connection_pool.hpp:58): memberwise move.
Moving the raw `pool_` pointer and the `connection_index_` copies them;
moving the `unique_ptr` leaves the source's null. Returns
(destination, moved-from source). -/
def Handle.moveCtor (rhs : Handle) : Handle × Handle :=
  (⟨rhs.pool_, rhs.connection_, rhs.connection_index_⟩,
   ⟨rhs.pool_, none, rhs.connection_index_⟩)

/-- `Handle& operator=(Handle&&) = default` (connection_pool.hpp:61):
memberwise move assignment, for distinct objects; the destination's old
connection is destroyed and replaced. Returns (new destination,
moved-from source). -/
def Handle.moveAssign (_lhs rhs : Handle) : Handle × Handle :=
  (⟨rhs.pool_, rhs.connection_, rhs.connection_index_⟩,
   ⟨rhs.pool_, none, rhs.connection_index_⟩)

/-- `Connection_pool` state (connection_pool.hpp:216-218): the connected
flag and the slots, each an owned Connection (possibly moved out) plus a
busy flag. The mutex only serializes access and has no sequential content. -/
structure Connection_pool where
  is_connected_ : Bool := false
  connections_ : List (Option Connection × Bool) := []
deriving DecidableEq

/-- Modelled from the spec: part of `connection()` (connection_pool.cpp is
not under `src/`); the index of the first slot whose busy flag is unset. -/
def firstFree : List (Option Connection × Bool) → Option Nat
  | [] => none
  | (_, busy) :: rest => if busy then (firstFree rest).map (fun i => i + 1) else some 0

/-- Modelled from the spec: `Connection_pool::connection()` is implemented
in `connection_pool.cpp`, not under `src/`. Per the spec it is a total
try-or-fail operation: if the pool is not connected, or no slot is free, it
returns a default (invalid) Handle immediately, with no blocking, queuing
or error; otherwise it marks the first free slot busy, moves that slot's
Connection out into a new Handle bound to that slot index, and returns it.
`self` is the pool's own address, stored in the handle. -/
def Connection_pool.connection (p : Connection_pool) (self : Nat) :
    Connection_pool × Handle :=
  if !p.is_connected_ then (p, {})
  else
    match firstFree p.connections_ with
    | none => (p, {})
    | some i =>
      let slot := (p.connections_[i]?).getD (none, false)
      ({ p with connections_ := p.connections_.set i (none, true) },
       { pool_ := some self, connection_ := slot.1, connection_index_ := i })

/-- Modelled from the spec: `Connection_pool::release(Handle&)` is
implemented in `connection_pool.cpp`, not under `src/`. Per the spec it is
idempotent and never fails: a no-op if the Handle is already invalid; if
the pool is connected, the release handler runs on the Connection and the
handled Connection moves back into its originating slot, which is marked
free; if the pool is not connected, the Connection is destroyed instead.
On a valid handle, the handle's pool reference and connection are cleared.
`rh` is the pool's `release_handler_` (connection_pool.hpp:220), given as
the effect it has on a session; it is passed explicitly instead of being a
pool field so that pool states keep decidable equality, and it is a total
function because errors from the handler are swallowed. Returns
(pool after, handle after). -/
def Connection_pool.release (rh : Connection → Connection) (p : Connection_pool)
    (h : Handle) : Connection_pool × Handle :=
  if !h.is_valid then (p, h)
  else if p.is_connected_ then
    ({ p with connections_ :=
        p.connections_.set h.connection_index_ (h.connection_.map rh, false) },
     {})
  else
    (p, {})

-- ---------------------------------------------------------------------------
-- Helper lemmas about flat memory
-- ---------------------------------------------------------------------------

/-- Reading at the base of a block just appended returns that block. -/
theorem readMem_append_self (m x : Mem) (n : Nat) (hx : x.length = n) :
    readMem (m ++ x) m.length n = x := by
  unfold readMem
  rw [List.drop_left, ← hx, List.take_length]

/-- Reading the prefix of a block just appended returns that prefix. -/
theorem readMem_append_prefix (m x rest : Mem) (n : Nat) (hx : x.length = n) :
    readMem (m ++ (x ++ rest)) m.length n = x := by
  unfold readMem
  rw [List.drop_left, List.take_left' hx]

/-- Appending to memory does not change reads inside the old part. -/
theorem readMem_append_of_le (m ys : Mem) (a n : Nat) (h : a + n ≤ m.length) :
    readMem (m ++ ys) a n = readMem m a n := by
  unfold readMem
  rw [List.drop_append_of_le_length (by omega),
    List.take_append_of_le_length (by rw [List.length_drop]; omega)]

/-- An in-bounds read returns exactly `n` bytes. -/
theorem readMem_length (m : Mem) (a n : Nat) (h : a + n ≤ m.length) :
    (readMem m a n).length = n := by
  unfold readMem
  rw [List.length_take, List.length_drop]
  omega

-- ---------------------------------------------------------------------------
-- Claim theorems
-- ---------------------------------------------------------------------------

/-- C1: for every Data instance of every variant, `(size() == 0) == is_empty()`
holds (so `is_invariant_ok` is true), and whenever `is_empty()` is true,
`bytes()` is non-null. -/
theorem data_invariant_holds (d : Data) :
    d.is_invariant_ok = true ∧ ((d.size = 0) ↔ d.is_empty = true) ∧
    (d.is_empty = true → d.bytes ≠ Ptr.null) := by
  cases d with
  | container_Data s f =>
    cases s <;>
      simp [Data.is_invariant_ok, Data.size, Data.is_empty, Data.bytes]
  | memory_Data st n f =>
    cases st <;>
      simp [Data.is_invariant_ok, Data.size, Data.is_empty, Data.bytes] <;>
      cases n <;> simp
  | empty_Data f =>
    simp [Data.is_invariant_ok, Data.size, Data.is_empty, Data.bytes]
  | view v =>
    by_cases hp : v.data_.ptr = Ptr.null <;>
      cases hn : v.data_.size <;>
      simp [Data.is_invariant_ok, Data.size, Data.is_empty, Data.bytes,
        Data_view.size, Data_view.is_empty, Data_view.bytes, hp, hn]

/-- C1 witness: the invariant and the non-null guarantee at concrete empty
instances, one per variant. -/
theorem data_invariant_holds_witness :
    ((Data.empty_Data 0).is_invariant_ok = true ∧ (Data.empty_Data 0).bytes ≠ Ptr.null) ∧
    ((Data.container_Data [] 0).is_invariant_ok = true ∧
      (Data.container_Data [] 0).bytes ≠ Ptr.null) ∧
    ((Data.memory_Data (some 2) 0 1).is_invariant_ok = true ∧
      (Data.memory_Data (some 2) 0 1).bytes ≠ Ptr.null) ∧
    ((Data.view {}).is_invariant_ok = true ∧ (Data.view {}).bytes ≠ Ptr.null) :=
  ⟨⟨(data_invariant_holds (Data.empty_Data 0)).1,
    (data_invariant_holds (Data.empty_Data 0)).2.2 rfl⟩,
   ⟨(data_invariant_holds (Data.container_Data [] 0)).1,
    (data_invariant_holds (Data.container_Data [] 0)).2.2 rfl⟩,
   ⟨(data_invariant_holds (Data.memory_Data (some 2) 0 1)).1,
    (data_invariant_holds (Data.memory_Data (some 2) 0 1)).2.2 rfl⟩,
   ⟨(data_invariant_holds (Data.view {})).1,
    (data_invariant_holds (Data.view {})).2.2 rfl⟩⟩

/-- C7 counterexample: moving from the Data_view with format text over two
bytes at address 3 does not leave the source in the default-constructed
state — its length stays 2, because the move operations reset only
`format_` (data.cpp:283), never `data_`. -/
theorem data_view_move_cex :
    (Data_view.moveCtor ⟨0, ⟨Ptr.addr 3, 2⟩⟩).2.data_.size ≠ 0 ∧
    (Data_view.moveCtor ⟨0, ⟨Ptr.addr 3, 2⟩⟩).2 ≠ ({} : Data_view) ∧
    (Data_view.moveAssign {} ⟨0, ⟨Ptr.addr 3, 2⟩⟩).2.data_.size ≠ 0 := by
  decide

/-- C7 (amended): move construction and move assignment of a Data_view
transfer the borrowed bytes, size, and format to the destination and set
the source's format to the invalid sentinel -1; the source's borrowed
pointer and length are left unchanged (the source is invalid by its format
tag but is not restored to the default zero-length state). -/
theorem data_view_move_spec (v w : Data_view) :
    Data_view.moveCtor v = (⟨v.format_, v.data_⟩, ⟨-1, v.data_⟩) ∧
    Data_view.moveAssign w v = (⟨v.format_, v.data_⟩, ⟨-1, v.data_⟩) :=
  ⟨rfl, rfl⟩

/-- C9: constructing a Data_view from a null byte pointer (either
constructor) yields the default state: sentinel format -1, zero length,
with `size()` 0, `bytes()` the non-null empty literal, and
`is_invariant_ok()` true, so the constructors' assertions pass; all the
modelled operations are total functions. -/
theorem data_view_null_ctor_safe (m : Mem) (n : Nat) (f : Int) :
    Data_view.fromCString m Ptr.null = ({} : Data_view) ∧
    Data_view.fromBytes Ptr.null n f = ({} : Data_view) ∧
    (Data.view (Data_view.fromCString m Ptr.null)).size = 0 ∧
    (Data.view (Data_view.fromCString m Ptr.null)).format = -1 ∧
    (Data.view (Data_view.fromCString m Ptr.null)).bytes = Ptr.emptyLit ∧
    (Data.view (Data_view.fromCString m Ptr.null)).bytes ≠ Ptr.null ∧
    (Data.view (Data_view.fromCString m Ptr.null)).is_invariant_ok = true ∧
    (Data.view (Data_view.fromBytes Ptr.null n f)).size = 0 ∧
    (Data.view (Data_view.fromBytes Ptr.null n f)).bytes ≠ Ptr.null ∧
    (Data.view (Data_view.fromBytes Ptr.null n f)).is_invariant_ok = true := by
  have h1 : Data_view.fromCString m Ptr.null = ({} : Data_view) := rfl
  have h2 : Data_view.fromBytes Ptr.null n f = ({} : Data_view) := rfl
  rw [h1, h2]
  refine ⟨rfl, rfl, rfl, rfl, rfl, by decide, by decide, rfl, by decide, by decide⟩

/-- C10: after move-constructing or move-assigning from a valid Handle, the
moved-from Handle holds no connection and is invalid, but the defaulted
memberwise moves leave its raw pool pointer unchanged: `pool()` still
returns the original non-null pool pointer. -/
theorem handle_move_spec (pid : Nat) (c : Connection) (i : Nat) (w : Handle) :
    (Handle.moveCtor ⟨some pid, some c, i⟩).1 = ⟨some pid, some c, i⟩ ∧
    (Handle.moveCtor ⟨some pid, some c, i⟩).2.connection_ = none ∧
    (Handle.moveCtor ⟨some pid, some c, i⟩).2.is_valid = false ∧
    (Handle.moveCtor ⟨some pid, some c, i⟩).2.pool = some pid ∧
    (Handle.moveAssign w ⟨some pid, some c, i⟩).1 = ⟨some pid, some c, i⟩ ∧
    (Handle.moveAssign w ⟨some pid, some c, i⟩).2.connection_ = none ∧
    (Handle.moveAssign w ⟨some pid, some c, i⟩).2.is_valid = false ∧
    (Handle.moveAssign w ⟨some pid, some c, i⟩).2.pool = some pid :=
  ⟨rfl, rfl, rfl, rfl, rfl, rfl, rfl, rfl⟩

/-- C2: `connection()` is a total function (no blocking, no error path):
when the pool is not connected or no slot is free it returns the default
(invalid) Handle and leaves the pool unchanged; otherwise it marks the
first free slot busy, moves that slot's Connection into a new valid Handle
bound to that slot's index, and returns it. -/
theorem pool_connection_spec (p : Connection_pool) (self : Nat) :
    ((p.is_connected_ = false ∨ firstFree p.connections_ = none) →
      Connection_pool.connection p self = (p, ({} : Handle)) ∧
      (Connection_pool.connection p self).2.is_valid = false) ∧
    (∀ i c b, p.is_connected_ = true → firstFree p.connections_ = some i →
      p.connections_[i]? = some (some c, b) →
      Connection_pool.connection p self =
        ({ p with connections_ := p.connections_.set i (none, true) },
         { pool_ := some self, connection_ := some c, connection_index_ := i }) ∧
      (Connection_pool.connection p self).2.is_valid = true) := by
  constructor
  · rintro (h | h)
    · simp [Connection_pool.connection, h, Handle.is_valid]
    · by_cases hc : p.is_connected_ <;>
        simp [Connection_pool.connection, hc, h, Handle.is_valid]
  · intro i c b hc hf hg
    simp [Connection_pool.connection, hc, hf, hg, Handle.is_valid]

/-- C2 witness: a connected one-slot pool with a free Connection hands it
out; a disconnected pool returns an invalid handle. -/
theorem pool_connection_spec_witness :
    Connection_pool.connection ⟨true, [(some ⟨7⟩, false)]⟩ 0 =
      (⟨true, [(none, true)]⟩, ⟨some 0, some ⟨7⟩, 0⟩) ∧
    (Connection_pool.connection ⟨true, [(some ⟨7⟩, false)]⟩ 0).2.is_valid = true ∧
    Connection_pool.connection ⟨false, []⟩ 1 = (⟨false, []⟩, ({} : Handle)) := by
  have hpos := (pool_connection_spec ⟨true, [(some ⟨7⟩, false)]⟩ 0).2 0 ⟨7⟩ false
    rfl rfl rfl
  have hneg := (pool_connection_spec ⟨false, []⟩ 1).1 (Or.inl rfl)
  exact ⟨hpos.1, hpos.2, hneg.1⟩

/-- C3 counterexample: a Handle moved from a valid one is invalid yet still
carries its pool pointer; `release` on it is a no-op, so afterwards
`handle.pool()` is still non-null, refuting the claim that in all cases
`!handle.pool()` holds after the call. -/
theorem pool_release_cex :
    (Connection_pool.release (fun c => c) ⟨true, [(none, true)]⟩
      (Handle.moveCtor ⟨some 5, some ⟨7⟩, 0⟩).2).2.pool ≠ none := by
  decide

/-- C3 (amended): `release` is idempotent and never fails: on an invalid
Handle it is a no-op, leaving pool and Handle unchanged (so a moved-from
Handle that still carries a pool pointer keeps it); on a valid Handle, if
the pool `is_connected()` it runs the release handler on the Connection,
moves the handled Connection back into its originating slot and marks the
slot free, and if the pool is not connected it destroys the Connection
instead of returning it — on a valid Handle, afterwards the Handle
satisfies `!handle.pool() && !handle.is_valid()`. Releasing the resulting
handle again is always a no-op. -/
theorem pool_release_spec (rh : Connection → Connection) (p : Connection_pool)
    (h : Handle) :
    (h.is_valid = false → Connection_pool.release rh p h = (p, h)) ∧
    (h.is_valid = true →
      (Connection_pool.release rh p h).2 = ({} : Handle) ∧
      (Connection_pool.release rh p h).2.pool = none ∧
      (Connection_pool.release rh p h).2.is_valid = false ∧
      (∀ c, h.connection_ = some c → p.is_connected_ = true →
        (Connection_pool.release rh p h).1 =
          { p with connections_ :=
              p.connections_.set h.connection_index_ (some (rh c), false) }) ∧
      (p.is_connected_ = false → (Connection_pool.release rh p h).1 = p)) ∧
    Connection_pool.release rh (Connection_pool.release rh p h).1
        (Connection_pool.release rh p h).2 =
      ((Connection_pool.release rh p h).1, (Connection_pool.release rh p h).2) := by
  obtain ⟨hp, hcn, hi⟩ := h
  refine ⟨?_, ?_, ?_⟩
  · intro hv
    cases hp <;> cases hcn <;>
      simp_all [Connection_pool.release, Handle.is_valid]
  · intro hv
    cases hp <;> cases hcn <;>
      by_cases hc : p.is_connected_ = true <;>
      simp_all [Connection_pool.release, Handle.is_valid, Handle.pool]
  · cases hp <;> cases hcn <;>
      by_cases hc : p.is_connected_ = true <;>
      simp_all [Connection_pool.release, Handle.is_valid, Handle.pool]

/-- C3 witness: releasing a valid handle into a connected one-slot pool
runs the handler (here adding 10 to the session id) on the Connection and
returns the handled Connection to its slot, invalidating the handle;
releasing a default (invalid) handle is a no-op. -/
theorem pool_release_spec_witness :
    (Connection_pool.release (fun c => ⟨c.id + 10⟩) ⟨true, [(none, true)]⟩
      ⟨some 0, some ⟨3⟩, 0⟩).2 = ({} : Handle) ∧
    (Connection_pool.release (fun c => ⟨c.id + 10⟩) ⟨true, [(none, true)]⟩
      ⟨some 0, some ⟨3⟩, 0⟩).1 = ⟨true, [(some ⟨13⟩, false)]⟩ ∧
    Connection_pool.release (fun c => ⟨c.id + 10⟩) ⟨false, []⟩ ({} : Handle) =
      (⟨false, []⟩, ({} : Handle)) := by
  have H := pool_release_spec (fun c => ⟨c.id + 10⟩) ⟨true, [(none, true)]⟩
    ⟨some 0, some ⟨3⟩, 0⟩
  have H2 := pool_release_spec (fun c => ⟨c.id + 10⟩) ⟨false, []⟩ ({} : Handle)
  exact ⟨(H.2.1 rfl).1, (H.2.1 rfl).2.2.2.1 ⟨3⟩ rfl rfl, H2.1 rfl⟩

/-- C5: `make(span, format)` with a non-empty in-bounds span allocates a
fresh heap block of `span.size + 1` bytes at the end of memory, copies the
span's bytes into it followed by a 0 terminator, and returns a
`memory_Data` with the given format and size `span.size`; with an empty
span it returns an `empty_Data` with the given format and leaves memory
untouched (no payload allocation). -/
theorem make_spec (m : Mem) (sv : String_view) (f : Int) :
    (sv.size = 0 → Data.make m sv f = (m, Data.empty_Data f)) ∧
    (∀ a, sv.ptr = Ptr.addr a → 0 < sv.size → a + sv.size ≤ m.length →
      (Data.make m sv f).2 = Data.memory_Data (some m.length) sv.size f ∧
      (Data.make m sv f).1 = m ++ (readMem m a sv.size ++ [0]) ∧
      (Data.make m sv f).1.length = m.length + (sv.size + 1) ∧
      readMem (Data.make m sv f).1 m.length sv.size = readMem m a sv.size ∧
      readMem (Data.make m sv f).1 (m.length + sv.size) 1 = [0]) := by
  constructor
  · intro h0
    simp [Data.make, h0]
  · intro a ha hpos hle
    have hread : sv.read m = readMem m a sv.size := by
      simp [String_view.read, readPtr, ha]
    have hclen : (readMem m a sv.size).length = sv.size := readMem_length m a sv.size hle
    have hmk : Data.make m sv f =
        (m ++ (readMem m a sv.size ++ [0]), Data.memory_Data (some m.length) sv.size f) := by
      simp [Data.make, hpos, hread]
    rw [hmk]
    refine ⟨rfl, rfl, ?_, ?_, ?_⟩
    · simp [hclen]
    · exact readMem_append_prefix m (readMem m a sv.size) [0] sv.size hclen
    · have h1 : m ++ (readMem m a sv.size ++ [0]) = (m ++ readMem m a sv.size) ++ [0] :=
        (List.append_assoc m (readMem m a sv.size) [0]).symm
      have h2 : (m ++ readMem m a sv.size).length = m.length + sv.size := by
        rw [List.length_append, hclen]
      rw [h1, ← h2]
      exact readMem_append_self (m ++ readMem m a sv.size) [0] 1 rfl

/-- C5 witness: making a copy of two bytes out of a three-byte memory. -/
theorem make_spec_witness :
    Data.make [7, 8, 9] ⟨Ptr.addr 1, 2⟩ 1 =
      ([7, 8, 9, 8, 9, 0], Data.memory_Data (some 3) 2 1) ∧
    Data.make [7, 8, 9] ⟨Ptr.addr 1, 0⟩ 1 = ([7, 8, 9], Data.empty_Data 1) := by
  have H := make_spec [7, 8, 9] ⟨Ptr.addr 1, 2⟩ 1
  have h2 := (H.2 1 rfl (by decide) (by decide)).2.1
  have h1 := (H.2 1 rfl (by decide) (by decide)).1
  have H0 := (make_spec [7, 8, 9] ⟨Ptr.addr 1, 0⟩ 1).1 rfl
  refine ⟨?_, H0⟩
  have : Data.make [7, 8, 9] ⟨Ptr.addr 1, 2⟩ 1 =
      ((Data.make [7, 8, 9] ⟨Ptr.addr 1, 2⟩ 1).1, (Data.make [7, 8, 9] ⟨Ptr.addr 1, 2⟩ 1).2) :=
    rfl
  rw [this, h1, h2]
  rfl

/-- C4: for a non-empty in-bounds span and any format, `deep_copy`
(`to_data`) on the Data produced by `make(span, format)` returns a Data
with the same `size()`, the same `format()`, byte-for-byte equal content
(read at both `bytes()` pointers in the final memory), and a `bytes()`
pointer distinct from the original's. -/
theorem make_deep_copy_roundtrip (m : Mem) (sv : String_view) (f : Int) (a : Nat)
    (ha : sv.ptr = Ptr.addr a) (hpos : 0 < sv.size) (hle : a + sv.size ≤ m.length) :
    (Data.to_data (Data.make m sv f).1 (Data.make m sv f).2).2.size =
      (Data.make m sv f).2.size ∧
    (Data.to_data (Data.make m sv f).1 (Data.make m sv f).2).2.format =
      (Data.make m sv f).2.format ∧
    readPtr (Data.to_data (Data.make m sv f).1 (Data.make m sv f).2).1
        (Data.to_data (Data.make m sv f).1 (Data.make m sv f).2).2.bytes
        (Data.to_data (Data.make m sv f).1 (Data.make m sv f).2).2.size =
      readPtr (Data.to_data (Data.make m sv f).1 (Data.make m sv f).2).1
        (Data.make m sv f).2.bytes (Data.make m sv f).2.size ∧
    (Data.to_data (Data.make m sv f).1 (Data.make m sv f).2).2.bytes ≠
      (Data.make m sv f).2.bytes := by
  have hread : sv.read m = readMem m a sv.size := by
    simp [String_view.read, readPtr, ha]
  have hclen : (readMem m a sv.size).length = sv.size := readMem_length m a sv.size hle
  have hmk : Data.make m sv f =
      (m ++ (readMem m a sv.size ++ [0]), Data.memory_Data (some m.length) sv.size f) := by
    simp [Data.make, hpos, hread]
  set c := readMem m a sv.size with hc
  set m1 := m ++ (c ++ [0]) with hm1
  have hm1len : m1.length = m.length + (sv.size + 1) := by
    simp [hm1, hclen]
  have hread1 : String_view.read ⟨Ptr.addr m.length, sv.size⟩ m1 = c := by
    simp only [String_view.read, readPtr, hm1]
    exact readMem_append_prefix m c [0] sv.size hclen
  have htd : Data.to_data m1 (Data.memory_Data (some m.length) sv.size f) =
      (m1 ++ (c ++ [0]), Data.memory_Data (some m1.length) sv.size f) := by
    simp [Data.to_data, Data.make, hpos, hread1]
  rw [hmk]
  simp only [htd]
  refine ⟨rfl, rfl, ?_, ?_⟩
  · simp only [Data.bytes, Data.size, readPtr]
    have hleft : readMem (m1 ++ (c ++ [0])) m1.length sv.size = c :=
      readMem_append_prefix m1 c [0] sv.size hclen
    have hright : readMem (m1 ++ (c ++ [0])) m.length sv.size = c := by
      rw [readMem_append_of_le m1 (c ++ [0]) m.length sv.size (by rw [hm1len]; omega)]
      simp only [hm1]
      exact readMem_append_prefix m c [0] sv.size hclen
    rw [hleft, hright]
  · simp only [Data.bytes]
    intro hcontra
    have : m1.length = m.length := by
      simpa using hcontra
    omega

/-- C4 witness: copying two bytes and deep-copying the result gives equal
size, format and content at a different address. -/
theorem make_deep_copy_roundtrip_witness :
    (0 : Nat) + 2 ≤ 3 ∧
    ((Data.to_data (Data.make [7, 8, 9] ⟨Ptr.addr 0, 2⟩ 0).1
        (Data.make [7, 8, 9] ⟨Ptr.addr 0, 2⟩ 0).2).2.size =
      (Data.make [7, 8, 9] ⟨Ptr.addr 0, 2⟩ 0).2.size ∧
    (Data.to_data (Data.make [7, 8, 9] ⟨Ptr.addr 0, 2⟩ 0).1
        (Data.make [7, 8, 9] ⟨Ptr.addr 0, 2⟩ 0).2).2.format =
      (Data.make [7, 8, 9] ⟨Ptr.addr 0, 2⟩ 0).2.format ∧
    readPtr (Data.to_data (Data.make [7, 8, 9] ⟨Ptr.addr 0, 2⟩ 0).1
          (Data.make [7, 8, 9] ⟨Ptr.addr 0, 2⟩ 0).2).1
        (Data.to_data (Data.make [7, 8, 9] ⟨Ptr.addr 0, 2⟩ 0).1
          (Data.make [7, 8, 9] ⟨Ptr.addr 0, 2⟩ 0).2).2.bytes
        (Data.to_data (Data.make [7, 8, 9] ⟨Ptr.addr 0, 2⟩ 0).1
          (Data.make [7, 8, 9] ⟨Ptr.addr 0, 2⟩ 0).2).2.size =
      readPtr (Data.to_data (Data.make [7, 8, 9] ⟨Ptr.addr 0, 2⟩ 0).1
          (Data.make [7, 8, 9] ⟨Ptr.addr 0, 2⟩ 0).2).1
        (Data.make [7, 8, 9] ⟨Ptr.addr 0, 2⟩ 0).2.bytes
        (Data.make [7, 8, 9] ⟨Ptr.addr 0, 2⟩ 0).2.size ∧
    (Data.to_data (Data.make [7, 8, 9] ⟨Ptr.addr 0, 2⟩ 0).1
        (Data.make [7, 8, 9] ⟨Ptr.addr 0, 2⟩ 0).2).2.bytes ≠
      (Data.make [7, 8, 9] ⟨Ptr.addr 0, 2⟩ 0).2.bytes) :=
  ⟨by decide,
   make_deep_copy_roundtrip [7, 8, 9] ⟨Ptr.addr 0, 2⟩ 0 0 rfl (by decide) (by decide)⟩

/-- C6: `make_no_copy(span, format)` with a non-empty span (whose pointer,
as for any valid non-empty `std::string_view`, is non-null) returns a
`Data_view` whose `bytes()` is exactly the span's pointer and whose
`size()` and `format()` are the given ones; memory is not an input at all,
so no byte is copied. With an empty span it returns an `empty_Data` with
the given format. -/
theorem make_no_copy_spec (sv : String_view) (f : Int) :
    (0 < sv.size → sv.ptr ≠ Ptr.null →
      Data.make_no_copy sv f = Data.view ⟨f, sv⟩ ∧
      (Data.make_no_copy sv f).bytes = sv.ptr ∧
      (Data.make_no_copy sv f).size = sv.size ∧
      (Data.make_no_copy sv f).format = f) ∧
    (sv.size = 0 →
      Data.make_no_copy sv f = Data.empty_Data f ∧
      (Data.make_no_copy sv f).format = f ∧
      (Data.make_no_copy sv f).is_empty = true) := by
  constructor
  · intro hpos hnn
    have hmk : Data.make_no_copy sv f = Data.view ⟨f, sv⟩ := by
      simp [Data.make_no_copy, hpos, Data_view.fromBytes, hnn]
    rw [hmk]
    exact ⟨rfl, by simp [Data.bytes, Data_view.bytes, hnn], rfl, rfl⟩
  · intro h0
    simp [Data.make_no_copy, h0, Data.format, Data.is_empty]

/-- C6 witness: a two-byte span at address 4 becomes a view aliasing it; an
empty span becomes an `empty_Data`. -/
theorem make_no_copy_spec_witness :
    Data.make_no_copy ⟨Ptr.addr 4, 2⟩ 1 = Data.view ⟨1, ⟨Ptr.addr 4, 2⟩⟩ ∧
    (Data.make_no_copy ⟨Ptr.addr 4, 2⟩ 1).bytes = Ptr.addr 4 ∧
    Data.make_no_copy ⟨Ptr.addr 4, 0⟩ 1 = Data.empty_Data 1 :=
  ⟨((make_no_copy_spec ⟨Ptr.addr 4, 2⟩ 1).1 (by decide) (by decide)).1,
   ((make_no_copy_spec ⟨Ptr.addr 4, 2⟩ 1).1 (by decide) (by decide)).2.1,
   ((make_no_copy_spec ⟨Ptr.addr 4, 0⟩ 1).2 rfl).1⟩

/-- C8: `Data_view::to_data` always returns an owning `memory_Data` (never
itself or another view) backed by a freshly allocated block at the end of
memory, with the same size and format as the view; exactly `size()` bytes
are appended (no 0 terminator), the copied block equals the view's bytes
when they are in bounds, and even for a zero-length view the result is a
`memory_Data` whose `bytes()` is a non-null address (nothing is appended
then, mirroring `new char[0]`). -/
theorem data_view_to_data_spec (m : Mem) (v : Data_view) :
    (Data.to_data m (Data.view v)).2 =
      Data.memory_Data (some m.length) v.size v.format_ ∧
    (Data.to_data m (Data.view v)).2.size = (Data.view v).size ∧
    (Data.to_data m (Data.view v)).2.format = (Data.view v).format ∧
    (Data.to_data m (Data.view v)).2.bytes = Ptr.addr m.length ∧
    (Data.to_data m (Data.view v)).2.bytes ≠ Ptr.null ∧
    (v.size = 0 → (Data.to_data m (Data.view v)).1 = m) ∧
    (∀ a, v.data_.ptr = Ptr.addr a → a + v.size ≤ m.length →
      (Data.to_data m (Data.view v)).1.length = m.length + v.size ∧
      readMem (Data.to_data m (Data.view v)).1 m.length v.size =
        readMem m a v.size) := by
  refine ⟨rfl, rfl, rfl, rfl, by simp [Data.to_data, Data.bytes], ?_, ?_⟩
  · intro h0
    have h0' : v.data_.size = 0 := h0
    cases hp : v.data_.ptr <;>
      simp [Data.to_data, readPtr, readMem, hp, h0']
  · intro a ha hle
    have hsz : v.size = v.data_.size := rfl
    have hclen : (readMem m a v.data_.size).length = v.data_.size :=
      readMem_length m a v.data_.size (by rw [← hsz]; omega)
    constructor
    · simp [Data.to_data, readPtr, ha, hclen, hsz]
    · simp only [Data.to_data, readPtr, ha, hsz]
      exact readMem_append_self m (readMem m a v.data_.size) v.data_.size hclen

/-- C8 witness: deep-copying a two-byte view appends exactly those two
bytes, and deep-copying a zero-length view still yields an owning
`memory_Data` with a non-null address and appends nothing. -/
theorem data_view_to_data_spec_witness :
    (Data.to_data [7, 8, 9] (Data.view ⟨0, ⟨Ptr.addr 1, 2⟩⟩)).2 =
      Data.memory_Data (some 3) 2 0 ∧
    (Data.to_data [7, 8, 9] (Data.view ⟨0, ⟨Ptr.addr 1, 2⟩⟩)).1.length = 3 + 2 ∧
    readMem (Data.to_data [7, 8, 9] (Data.view ⟨0, ⟨Ptr.addr 1, 2⟩⟩)).1 3 2 =
      readMem [7, 8, 9] 1 2 ∧
    (Data.to_data [] (Data.view ({} : Data_view))).2 =
      Data.memory_Data (some 0) 0 (-1) ∧
    (Data.to_data [] (Data.view ({} : Data_view))).1 = [] :=
  ⟨(data_view_to_data_spec [7, 8, 9] ⟨0, ⟨Ptr.addr 1, 2⟩⟩).1,
   ((data_view_to_data_spec [7, 8, 9] ⟨0, ⟨Ptr.addr 1, 2⟩⟩).2.2.2.2.2.2 1
     rfl (by decide)).1,
   ((data_view_to_data_spec [7, 8, 9] ⟨0, ⟨Ptr.addr 1, 2⟩⟩).2.2.2.2.2.2 1
     rfl (by decide)).2,
   (data_view_to_data_spec [] ({} : Data_view)).1,
   (data_view_to_data_spec [] ({} : Data_view)).2.2.2.2.2.1 rfl⟩

end Pgfe
